import Mathlib

/-!
Shallow embedding of the alert evaluation engine of
`src/alerts/alert_manager.py` (class `AlertManager`), together with proofs
about its behaviour.

Modelling conventions:
* Python floats are modelled as exact rationals (`ℚ`); `time.time()` is an
  explicit `now : ℚ` parameter threaded through each checker.
* A record field whose `float()` conversion would raise is modelled by the
  constructor `NumField.bad`; an absent field (Python `None` / `.get`
  default) is `Option.none`.
* The three mutable dictionaries of the `AlertManager` instance
  (`last_profit`, `last_triggered`, `last_call_triggered`) are association
  lists where the most recent insertion shadows older entries; lookup takes
  the first match, which models Python dict assignment followed by lookup.
* Returning the empty string `""` (Python falsy, meaning "no alert") is
  modelled as `Option.none`; a produced message is `some msg`.
* Python's `f"{x:.2f}"` formatting is abstracted by `toString` on `ℚ`; no
  claim depends on the decimal rendering of a number.
* The Twilio transport (`trigger_twilio_flow`) is a side effect outside the
  engine; its success or failure is an explicit boolean `dispatch_ok`
  parameter of `send_call`.
-/

namespace AlertManager

/-- A numeric record field as handed to `float(...)`: either a value that
converts to the rational `q`, or a non-numeric value (such as the string
`"abc"`) whose conversion raises. -/
inductive NumField where
  | num (q : ℚ)
  | bad
deriving DecidableEq, Repr

/-- `float(raw) if raw is not None else 0.0`, and `float(pos.get(field, 0.0))`:
an absent field yields `0.0`, a `bad` field raises (modelled as `none`). -/
def floatOfField : Option NumField → Option ℚ
  | none => some 0
  | some (.num q) => some q
  | some .bad => none

/-- `AlertManager.ASSET_FULL_NAMES` with the fallthrough to the code itself. -/
def assetFullName (code : String) : String :=
  if code = "BTC" then "Bitcoin"
  else if code = "ETH" then "Ethereum"
  else if code = "SOL" then "Solana"
  else code

/-- Python `str.upper()` (character-wise, which agrees on the ASCII data the
engine handles). -/
def pyUpper (s : String) : String :=
  String.mk (s.data.map Char.toUpper)

/-- Python `str.lower()`. -/
def pyLower (s : String) : String :=
  String.mk (s.data.map Char.toLower)

/-- Python `str.capitalize()`: first character upper-cased, remainder
lower-cased. -/
def pyCapitalize (s : String) : String :=
  match s.data with
  | [] => ""
  | c :: cs => String.mk (c.toUpper :: cs.map Char.toLower)

/-- First-match lookup with a default, modelling `dict.get(key, default)`. -/
def lookupD {α : Type} (m : List (String × α)) (k : String) (d : α) : α :=
  (List.lookup k m).getD d

/-- Dict assignment `m[k] = v`: later entries shadow earlier ones. -/
def insertS {α : Type} (m : List (String × α)) (k : String) (v : α) :
    List (String × α) :=
  (k, v) :: m

/-- A position record as consumed by the checkers.  `asset_type`,
`position_type`, `position_id` and `wallet_name` carry the `.get` defaults
already resolved (`"???"`, `""`, `"unknown"`, `"Unknown"` respectively), as
none of the claims concerns a missing identity field. -/
structure Position where
  asset_type : String
  position_type : String
  position_id : String
  wallet_name : String
  profit : Option NumField
  current_travel_percent : Option NumField
  liquidation_distance : Option NumField
deriving DecidableEq, Repr

/-- A row of `data_locker.get_alerts()` relevant to price alerts, with the
`.get` defaults already resolved. -/
structure AlertRow where
  alert_type : String
  status : String
  asset_type : String
  position_id : String
  condition : String
  trigger_value : Option NumField
  position_type : String
  wallet_name : String
deriving DecidableEq, Repr

/-- `profit_ranges` / `travel_percent_liquid_ranges` sub-configuration.  The
threshold values are modelled as already-numeric (their `float()` conversion
succeeds); no claim concerns a malformed threshold configuration. -/
structure RangeConfig where
  enabled : Bool
  low : ℚ
  medium : ℚ
  high : ℚ
deriving DecidableEq, Repr

/-- The slice of `self.config` the checkers read.  `average_daily_swing` and
`one_day_blast_radius` map the upper-cased asset code to its boundary, with
`0` as the `.get(asset, 0)` default. -/
structure Config where
  alert_cooldown_seconds : ℚ
  call_refractory_period : ℚ
  alert_monitor_enabled : Bool
  profit_ranges : RangeConfig
  travel_percent_liquid_ranges : RangeConfig
  average_daily_swing : List (String × ℚ)
  one_day_blast_radius : List (String × ℚ)
deriving DecidableEq, Repr

/-- The mutable per-instance state of `AlertManager`. -/
structure AMState where
  last_profit : List (String × String)
  last_triggered : List (String × ℚ)
  last_call_triggered : List (String × ℚ)
deriving DecidableEq, Repr

/-- The empty state a fresh `AlertManager` starts with. -/
def AMState.initial : AMState := ⟨[], [], []⟩

/-- `level_order` dict of `check_profit`, with the `.get(_, 0)` default for
unknown labels. -/
def level_order (l : String) : ℕ :=
  if l = "none" then 0
  else if l = "low" then 1
  else if l = "medium" then 2
  else if l = "high" then 3
  else 0

/-- The level classification of `check_profit`, evaluated after the
`profit_val < low_thresh` early return — so only for `low_thresh ≤ v`. -/
def profit_current_level (pr : RangeConfig) (v : ℚ) : String :=
  if v < pr.medium then "low"
  else if v < pr.high then "medium"
  else "high"

/-- `f"profit-{asset_full}-{position_type}-{position_id}"`. -/
def profit_key (pos : Position) : String :=
  "profit-" ++ assetFullName (pyUpper pos.asset_type) ++ "-"
    ++ pyCapitalize pos.position_type ++ "-" ++ pos.position_id

/-- The profit alert message (decimal formatting abstracted by `toString`). -/
def profit_msg (pos : Position) (v : ℚ) (lvl : String) : String :=
  "Profit ALERT: " ++ assetFullName (pyUpper pos.asset_type) ++ " "
    ++ pyCapitalize pos.position_type ++ " profit of " ++ toString v
    ++ " (Level: " ++ pyUpper lvl ++ ")"

/-- `AlertManager.check_profit`.  Returns the optional alert message and the
updated state. -/
def check_profit (cfg : Config) (now : ℚ) (st : AMState) (pos : Position) :
    Option String × AMState :=
  match floatOfField pos.profit with
  | none => (none, st)
  | some profit_val =>
    if profit_val ≤ 0 then (none, st)
    else if ¬ cfg.profit_ranges.enabled then (none, st)
    else if profit_val < cfg.profit_ranges.low then (none, st)
    else
      let current_level := profit_current_level cfg.profit_ranges profit_val
      let last_level := lookupD st.last_profit (profit_key pos) "none"
      if level_order current_level ≤ level_order last_level then
        (none, { st with
          last_profit := insertS st.last_profit (profit_key pos) current_level })
      else if now - lookupD st.last_triggered (profit_key pos) 0
          < cfg.alert_cooldown_seconds then
        (none, { st with
          last_profit := insertS st.last_profit (profit_key pos) current_level })
      else
        (some (profit_msg pos profit_val current_level),
         { st with
           last_triggered := insertS st.last_triggered (profit_key pos) now,
           last_profit := insertS st.last_profit (profit_key pos) current_level })

/-- The band classification of `check_travel_percent_liquid`, evaluated only
for negative values with the metric enabled; `none` models the final
`else: return ""`. -/
def travel_level (tr : RangeConfig) (v : ℚ) : Option String :=
  if v ≤ tr.high then some "HIGH"
  else if v ≤ tr.medium then some "MEDIUM"
  else if v ≤ tr.low then some "LOW"
  else none

/-- `f"{asset_full}-{position_type}-{position_id}-travel-{alert_level}"`. -/
def travel_key (pos : Position) (lvl : String) : String :=
  assetFullName (pyUpper pos.asset_type) ++ "-" ++ pyCapitalize pos.position_type
    ++ "-" ++ pos.position_id ++ "-travel-" ++ lvl

/-- The travel-percent alert message. -/
def travel_msg (pos : Position) (v : ℚ) (lvl : String) : String :=
  "Travel Percent Liquid ALERT: " ++ assetFullName (pyUpper pos.asset_type)
    ++ " " ++ pyCapitalize pos.position_type ++ " (Wallet: "
    ++ pos.wallet_name ++ ") - Travel% = " ++ toString v ++ "%, Level = " ++ lvl

/-- `AlertManager.check_travel_percent_liquid`. -/
def check_travel_percent_liquid (cfg : Config) (now : ℚ) (st : AMState)
    (pos : Position) : Option String × AMState :=
  match floatOfField pos.current_travel_percent with
  | none => (none, st)
  | some current_val =>
    if 0 ≤ current_val then (none, st)
    else if ¬ cfg.travel_percent_liquid_ranges.enabled then (none, st)
    else
      match travel_level cfg.travel_percent_liquid_ranges current_val with
      | none => (none, st)
      | some alert_level =>
        if now - lookupD st.last_triggered (travel_key pos alert_level) 0
            < cfg.alert_cooldown_seconds then
          (none, st)
        else
          (some (travel_msg pos current_val alert_level),
           { st with last_triggered :=
               insertS st.last_triggered (travel_key pos alert_level) now })

/-- `f"swing-{asset_full}-{position_type}-{position_id}"`. -/
def swing_key (pos : Position) : String :=
  "swing-" ++ assetFullName (pyUpper pos.asset_type) ++ "-"
    ++ pyCapitalize pos.position_type ++ "-" ++ pos.position_id

/-- The swing alert message. -/
def swing_msg (pos : Position) (v thr : ℚ) : String :=
  "Average Daily Swing ALERT: " ++ assetFullName (pyUpper pos.asset_type) ++ " "
    ++ pyCapitalize pos.position_type ++ " (ID: " ++ pos.position_id
    ++ ") - Actual Value = " ++ toString v
    ++ " exceeds Swing Threshold of " ++ toString thr

/-- `AlertManager.check_swing_alert`.  The per-asset boundary is looked up
under the upper-cased asset code with default `0`. -/
def check_swing_alert (cfg : Config) (now : ℚ) (st : AMState)
    (pos : Position) : Option String × AMState :=
  match floatOfField pos.liquidation_distance with
  | none => (none, st)
  | some current_value =>
    let swing_threshold := lookupD cfg.average_daily_swing (pyUpper pos.asset_type) 0
    if swing_threshold ≤ current_value then
      if cfg.alert_cooldown_seconds ≤ now - lookupD st.last_triggered (swing_key pos) 0 then
        (some (swing_msg pos current_value swing_threshold),
         { st with last_triggered := insertS st.last_triggered (swing_key pos) now })
      else (none, st)
    else (none, st)

/-- `f"blast-{asset_full}-{position_type}-{position_id}"`. -/
def blast_key (pos : Position) : String :=
  "blast-" ++ assetFullName (pyUpper pos.asset_type) ++ "-"
    ++ pyCapitalize pos.position_type ++ "-" ++ pos.position_id

/-- The blast alert message. -/
def blast_msg (pos : Position) (v thr : ℚ) : String :=
  "One Day Blast Radius ALERT: " ++ assetFullName (pyUpper pos.asset_type) ++ " "
    ++ pyCapitalize pos.position_type ++ " (ID: " ++ pos.position_id
    ++ ") - Actual Value = " ++ toString v
    ++ " exceeds Blast Threshold of " ++ toString thr

/-- `AlertManager.check_blast_alert`. -/
def check_blast_alert (cfg : Config) (now : ℚ) (st : AMState)
    (pos : Position) : Option String × AMState :=
  match floatOfField pos.liquidation_distance with
  | none => (none, st)
  | some current_value =>
    let blast_threshold := lookupD cfg.one_day_blast_radius (pyUpper pos.asset_type) 0
    if blast_threshold ≤ current_value then
      if cfg.alert_cooldown_seconds ≤ now - lookupD st.last_triggered (blast_key pos) 0 then
        (some (blast_msg pos current_value blast_threshold),
         { st with last_triggered := insertS st.last_triggered (blast_key pos) now })
      else (none, st)
    else (none, st)

/-- `f"price-alert-{asset_full}-{position_id}"`. -/
def price_key (asset_full position_id : String) : String :=
  "price-alert-" ++ asset_full ++ "-" ++ position_id

/-- `float(alert.get("trigger_value", 0.0))` with the `except: 0.0` fallback. -/
def trigger_val_of (a : AlertRow) : ℚ :=
  match floatOfField a.trigger_value with
  | some q => q
  | none => 0

/-- The price alert message built by `handle_price_alert_trigger`. -/
def price_msg (a : AlertRow) (asset_full : String) (current_price : ℚ) : String :=
  "Price ALERT: " ++ asset_full ++ " " ++ pyCapitalize a.position_type
    ++ (if a.wallet_name ≠ "Unknown" then ", Wallet: " ++ a.wallet_name else "")
    ++ " - Condition: " ++ pyUpper a.condition ++ ", Trigger: "
    ++ toString (trigger_val_of a) ++ ", Current: " ++ toString current_price

/-- `AlertManager.handle_price_alert_trigger`. -/
def handle_price_alert_trigger (cfg : Config) (now : ℚ) (st : AMState)
    (a : AlertRow) (current_price : ℚ) (asset_full : String) :
    Option String × AMState :=
  if now - lookupD st.last_triggered (price_key asset_full a.position_id) 0
      < cfg.alert_cooldown_seconds then
    (none, st)
  else
    (some (price_msg a asset_full current_price),
     { st with last_triggered :=
         insertS st.last_triggered (price_key asset_full a.position_id) now })

/-- The filter of `check_price_alerts`:
`alert_type == "PRICE_THRESHOLD" and status.lower() == "active"`. -/
def is_active_price_alert (a : AlertRow) : Bool :=
  a.alert_type = "PRICE_THRESHOLD" && pyLower a.status = "active"

/-- The body of the `for alert in price_alerts` loop of `check_price_alerts`,
threading the state.  `prices` models `data_locker.get_latest_price`:
`none` means no price row for that asset. -/
def price_alert_loop (cfg : Config) (now : ℚ) (prices : List (String × ℚ)) :
    List AlertRow → AMState → List String × AMState
  | [], st => ([], st)
  | a :: rest, st =>
    let asset_code := (pyUpper a.asset_type)
    let asset_full := assetFullName asset_code
    let step : List String × AMState :=
      match List.lookup asset_code prices with
      | none => ([], st)
      | some current_price =>
        if (pyUpper a.condition = "ABOVE" ∧ trigger_val_of a ≤ current_price)
            ∨ (pyUpper a.condition ≠ "ABOVE" ∧ current_price ≤ trigger_val_of a) then
          match handle_price_alert_trigger cfg now st a current_price asset_full with
          | (some msg, st') => ([msg], st')
          | (none, st') => ([], st')
        else ([], st)
    let rec_result := price_alert_loop cfg now prices rest step.2
    (step.1 ++ rec_result.1, rec_result.2)

/-- `AlertManager.check_price_alerts`. -/
def check_price_alerts (cfg : Config) (now : ℚ) (prices : List (String × ℚ))
    (st : AMState) (alerts : List AlertRow) : List String × AMState :=
  price_alert_loop cfg now prices (alerts.filter is_active_price_alert) st

/-- `AlertManager.send_call`.  `dispatch_ok` tells whether the Twilio call
`trigger_twilio_flow` succeeds or raises; the raised exception is caught in
the source, so the function is total either way.  The returned boolean
records whether the transport was invoked at all (i.e. the refractory gate
was passed).  `last_call_triggered` is advanced only after a successful
dispatch, because the assignment follows `trigger_twilio_flow` inside the
`try` block. -/
def send_call (cfg : Config) (now : ℚ) (dispatch_ok : Bool) (st : AMState)
    (body key : String) : AMState × Bool :=
  if now - lookupD st.last_call_triggered key 0 < cfg.call_refractory_period then
    (st, false)
  else if dispatch_ok then
    ({ st with last_call_triggered := insertS st.last_call_triggered key now }, true)
  else
    (st, true)

/-- One iteration of the `for pos in positions` loop of `check_alerts`:
profit, travel, swing and blast checks in order, collecting the non-empty
messages. -/
def check_position (cfg : Config) (now : ℚ) (st : AMState) (pos : Position) :
    List String × AMState :=
  let r1 := check_profit cfg now st pos
  let r2 := check_travel_percent_liquid cfg now r1.2 pos
  let r3 := check_swing_alert cfg now r2.2 pos
  let r4 := check_blast_alert cfg now r3.2 pos
  (r1.1.toList ++ r2.1.toList ++ r3.1.toList ++ r4.1.toList, r4.2)

/-- The whole position loop of `check_alerts`. -/
def check_positions (cfg : Config) (now : ℚ) :
    List Position → AMState → List String × AMState
  | [], st => ([], st)
  | pos :: rest, st =>
    let step := check_position cfg now st pos
    let rec_result := check_positions cfg now rest step.2
    (step.1 ++ rec_result.1, rec_result.2)

/-- `f" (source: {source})" if source else ""`. -/
def source_info_str : Option String → String
  | some s => " (source: " ++ s ++ ")"
  | none => ""

/-- The combined message handed to `send_call`:
`f"{len(aggregated_alerts)} alerts triggered{source_info}:\n" + "\n".join(...)`. -/
def aggregate_body (source : Option String) (msgs : List String) : String :=
  toString msgs.length ++ " alerts triggered" ++ source_info_str source
    ++ ":\n" ++ String.intercalate "\n" msgs

/-- Result of one `check_alerts` cycle: the final state, the collected
alert messages, and the `send_call` invocation made (body and key), if any. -/
structure CycleResult where
  state : AMState
  aggregated_alerts : List String
  dispatched : Option (String × String)
deriving DecidableEq, Repr

/-- `AlertManager.check_alerts`.  `positions` models
`data_locker.read_positions()`, `alerts` models `data_locker.get_alerts()`,
`prices` models `data_locker.get_latest_price` per asset code.  The
operations-log block of the source only writes log lines and is not part of
the engine state. -/
def check_alerts (cfg : Config) (now : ℚ) (dispatch_ok : Bool)
    (positions : List Position) (alerts : List AlertRow)
    (prices : List (String × ℚ)) (source : Option String) (st : AMState) :
    CycleResult :=
  if ¬ cfg.alert_monitor_enabled then
    ⟨st, [], none⟩
  else
    let pos_result := check_positions cfg now positions st
    let price_result := check_price_alerts cfg now prices pos_result.2 alerts
    let aggregated_alerts := pos_result.1 ++ price_result.1
    if aggregated_alerts = [] then
      ⟨price_result.2, aggregated_alerts, none⟩
    else
      let message := aggregate_body source aggregated_alerts
      let sc := send_call cfg now dispatch_ok price_result.2 message "aggregated-alert"
      ⟨sc.1, aggregated_alerts, some (message, "aggregated-alert")⟩

/-! ### Basic lemmas about the state maps -/

theorem lookupD_insert_self {α : Type} (m : List (String × α)) (k : String)
    (v d : α) : lookupD (insertS m k v) k d = v := by
  simp [lookupD, insertS, List.lookup]

/-! ### Shape lemmas: what a fired alert implies about inputs and state -/

/-- If `check_profit` fires, the profit parsed, was positive, the metric was
enabled, the value reached at least the low threshold, the computed level
strictly exceeded the stored one, the cooldown had elapsed, and the state was
updated accordingly. -/
theorem check_profit_fire_shape (cfg : Config) (now : ℚ) (st : AMState)
    (pos : Position) (m : String)
    (h : (check_profit cfg now st pos).1 = some m) :
    ∃ v, floatOfField pos.profit = some v ∧ 0 < v
      ∧ cfg.profit_ranges.enabled = true ∧ cfg.profit_ranges.low ≤ v
      ∧ level_order (lookupD st.last_profit (profit_key pos) "none")
          < level_order (profit_current_level cfg.profit_ranges v)
      ∧ cfg.alert_cooldown_seconds ≤ now - lookupD st.last_triggered (profit_key pos) 0
      ∧ m = profit_msg pos v (profit_current_level cfg.profit_ranges v)
      ∧ (check_profit cfg now st pos).2
          = { st with
              last_triggered := insertS st.last_triggered (profit_key pos) now,
              last_profit := insertS st.last_profit (profit_key pos)
                (profit_current_level cfg.profit_ranges v) } := by
  rcases hf : floatOfField pos.profit with - | v
  · simp [check_profit, hf] at h
  · refine ⟨v, rfl, ?_⟩
    simp only [check_profit, hf] at h ⊢
    split_ifs at h ⊢ with h1 h2 h3 h4 h5 <;> simp_all

/-- If `check_travel_percent_liquid` fires, the travel percent parsed, was
negative, the metric was enabled, a band was reached, the cooldown for the
band key had elapsed, and the state was updated accordingly. -/
theorem check_travel_fire_shape (cfg : Config) (now : ℚ) (st : AMState)
    (pos : Position) (m : String)
    (h : (check_travel_percent_liquid cfg now st pos).1 = some m) :
    ∃ v lvl, floatOfField pos.current_travel_percent = some v ∧ v < 0
      ∧ cfg.travel_percent_liquid_ranges.enabled = true
      ∧ travel_level cfg.travel_percent_liquid_ranges v = some lvl
      ∧ cfg.alert_cooldown_seconds
          ≤ now - lookupD st.last_triggered (travel_key pos lvl) 0
      ∧ m = travel_msg pos v lvl
      ∧ (check_travel_percent_liquid cfg now st pos).2
          = { st with last_triggered :=
                insertS st.last_triggered (travel_key pos lvl) now } := by
  rcases hf : floatOfField pos.current_travel_percent with - | v
  · simp [check_travel_percent_liquid, hf] at h
  · refine ⟨v, ?_⟩
    simp only [check_travel_percent_liquid, hf] at h ⊢
    rcases hl : travel_level cfg.travel_percent_liquid_ranges v with - | lvl
    · simp only [hl] at h
      split_ifs at h <;> simp_all
    · refine ⟨lvl, ?_⟩
      simp only [hl] at h ⊢
      split_ifs at h ⊢ with h1 h2 h3 <;> simp_all

/-- If `check_swing_alert` fires, the liquidation distance parsed, reached
the per-asset boundary (inclusive), the cooldown for the swing key had
elapsed, and the state was updated accordingly. -/
theorem check_swing_fire_shape (cfg : Config) (now : ℚ) (st : AMState)
    (pos : Position) (m : String)
    (h : (check_swing_alert cfg now st pos).1 = some m) :
    ∃ v, floatOfField pos.liquidation_distance = some v
      ∧ lookupD cfg.average_daily_swing (pyUpper pos.asset_type) 0 ≤ v
      ∧ cfg.alert_cooldown_seconds ≤ now - lookupD st.last_triggered (swing_key pos) 0
      ∧ m = swing_msg pos v (lookupD cfg.average_daily_swing (pyUpper pos.asset_type) 0)
      ∧ (check_swing_alert cfg now st pos).2
          = { st with last_triggered := insertS st.last_triggered (swing_key pos) now } := by
  rcases hf : floatOfField pos.liquidation_distance with - | v
  · simp [check_swing_alert, hf] at h
  · refine ⟨v, rfl, ?_⟩
    simp only [check_swing_alert, hf] at h ⊢
    split_ifs at h ⊢ with h1 h2 <;> simp_all

/-- If `check_blast_alert` fires, the liquidation distance parsed, reached
the per-asset boundary (inclusive), the cooldown for the blast key had
elapsed, and the state was updated accordingly. -/
theorem check_blast_fire_shape (cfg : Config) (now : ℚ) (st : AMState)
    (pos : Position) (m : String)
    (h : (check_blast_alert cfg now st pos).1 = some m) :
    ∃ v, floatOfField pos.liquidation_distance = some v
      ∧ lookupD cfg.one_day_blast_radius (pyUpper pos.asset_type) 0 ≤ v
      ∧ cfg.alert_cooldown_seconds ≤ now - lookupD st.last_triggered (blast_key pos) 0
      ∧ m = blast_msg pos v (lookupD cfg.one_day_blast_radius (pyUpper pos.asset_type) 0)
      ∧ (check_blast_alert cfg now st pos).2
          = { st with last_triggered := insertS st.last_triggered (blast_key pos) now } := by
  rcases hf : floatOfField pos.liquidation_distance with - | v
  · simp [check_blast_alert, hf] at h
  · refine ⟨v, rfl, ?_⟩
    simp only [check_blast_alert, hf] at h ⊢
    split_ifs at h ⊢ with h1 h2 <;> simp_all

/-- If `handle_price_alert_trigger` fires, the cooldown for the price key
had elapsed and the state was updated accordingly. -/
theorem handle_price_fire_shape (cfg : Config) (now : ℚ) (st : AMState)
    (a : AlertRow) (p : ℚ) (af m : String)
    (h : (handle_price_alert_trigger cfg now st a p af).1 = some m) :
    cfg.alert_cooldown_seconds
        ≤ now - lookupD st.last_triggered (price_key af a.position_id) 0
      ∧ m = price_msg a af p
      ∧ (handle_price_alert_trigger cfg now st a p af).2
          = { st with last_triggered :=
                insertS st.last_triggered (price_key af a.position_id) now } := by
  simp only [handle_price_alert_trigger] at h ⊢
  split_ifs at h ⊢ with h1 <;> simp_all

/-! ### Concrete fixtures used by witnesses and counterexamples -/

/-- A configuration with zero cooldown (the setting several spec test
properties use), profit thresholds 25, 50, 75 and travel thresholds
-25, -50, -75, both enabled. -/
def sampleCfg : Config :=
  { alert_cooldown_seconds := 0
    call_refractory_period := 3600
    alert_monitor_enabled := true
    profit_ranges := ⟨true, 25, 50, 75⟩
    travel_percent_liquid_ranges := ⟨true, -25, -50, -75⟩
    average_daily_swing := [("BTC", 10)]
    one_day_blast_radius := [("BTC", 10)] }

/-- `sampleCfg` with the default 900-second cooldown. -/
def sampleCfgCooldown : Config :=
  { sampleCfg with alert_cooldown_seconds := 900 }

/-- A BTC long position with the given profit, travel percent 0 and
liquidation distance 0. -/
def samplePos (q : ℚ) : Position :=
  ⟨"BTC", "LONG", "p1", "W1", some (.num q), some (.num 0), some (.num 0)⟩

/-! ### C1 -/

/-- Claim C1, counterexample.  With zero cooldown and profit thresholds 25/50/75,
the profit sequence 80 → 30 → 80 fires the HIGH profit alert, then nothing,
then the HIGH profit alert a second time: after the computed level drops
back to LOW, the stored level is overwritten downwards, so rising again to
HIGH re-fires.  Moreover the sequence 80 → 30 → 60 fires HIGH and then
MEDIUM, a strictly decreasing fired-level sequence. -/
theorem profit_refire_after_drop_counterexample :
    ((check_profit sampleCfg 0 AMState.initial (samplePos 80)).1
        = some (profit_msg (samplePos 80) 80 "high")
      ∧ (check_profit sampleCfg 1 (check_profit sampleCfg 0 AMState.initial
          (samplePos 80)).2 (samplePos 30)).1 = none
      ∧ (check_profit sampleCfg 2 (check_profit sampleCfg 1
            (check_profit sampleCfg 0 AMState.initial (samplePos 80)).2
            (samplePos 30)).2 (samplePos 80)).1
          = some (profit_msg (samplePos 80) 80 "high"))
    ∧ (check_profit sampleCfg 2 (check_profit sampleCfg 1
          (check_profit sampleCfg 0 AMState.initial (samplePos 80)).2
          (samplePos 30)).2 (samplePos 60)).1
        = some (profit_msg (samplePos 60) 60 "medium") := by
  have l0 : level_order "none" = 0 := by decide
  have l1 : level_order "low" = 1 := by decide
  have l2 : level_order "medium" = 2 := by decide
  have l3 : level_order "high" = 3 := by decide
  have k80 : profit_key (samplePos 80) = "profit-Bitcoin-Long-p1" := by decide
  have k30 : profit_key (samplePos 30) = "profit-Bitcoin-Long-p1" := by decide
  have k60 : profit_key (samplePos 60) = "profit-Bitcoin-Long-p1" := by decide
  have hp80 : floatOfField (samplePos 80).profit = some 80 := rfl
  have hp30 : floatOfField (samplePos 30).profit = some 30 := rfl
  have hp60 : floatOfField (samplePos 60).profit = some 60 := rfl
  refine ⟨⟨?_, ?_, ?_⟩, ?_⟩ <;>
    norm_num [check_profit, sampleCfg, profit_current_level, lookupD, insertS,
      AMState.initial, List.lookup, l0, l1, l2, l3, k80, k30, k60,
      hp80, hp30, hp60]

/-- Claim C1, amended.  `check_profit` fires exactly when the computed level is
strictly more severe than the level *currently stored* for the key and the
cooldown has elapsed — and whenever the computed level is at least `low`,
the stored level is overwritten with the computed level, even when that is a
downgrade.  Because of the downgrade, the fired-level sequence across cycles
need not be non-decreasing and a level already reached can fire again after
a drop (see the counterexample). -/
theorem profit_fire_strict_over_stored_level (cfg : Config) (now : ℚ)
    (st : AMState) (pos : Position) (v : ℚ)
    (hf : floatOfField pos.profit = some v) :
    ((check_profit cfg now st pos).1 ≠ none ↔
      0 < v ∧ cfg.profit_ranges.enabled = true ∧ cfg.profit_ranges.low ≤ v
      ∧ level_order (lookupD st.last_profit (profit_key pos) "none")
          < level_order (profit_current_level cfg.profit_ranges v)
      ∧ cfg.alert_cooldown_seconds ≤ now - lookupD st.last_triggered (profit_key pos) 0)
    ∧ (0 < v → cfg.profit_ranges.enabled = true → cfg.profit_ranges.low ≤ v →
        (check_profit cfg now st pos).2.last_profit
          = insertS st.last_profit (profit_key pos)
              (profit_current_level cfg.profit_ranges v)) := by
  simp only [check_profit, hf]
  split_ifs with h1 h2 h3 h4 h5 <;>
    constructor <;>
    simp_all <;>
    first
      | (intro h; linarith)
      | (intros; linarith)

/-- Claim C1, witness for the amended theorem: a fresh position with profit 80
under `sampleCfg` fires, and the stored level is set to "high". -/
theorem profit_fire_strict_over_stored_level_witness :
    (check_profit sampleCfg 0 AMState.initial (samplePos 80)).1 ≠ none
    ∧ (check_profit sampleCfg 0 AMState.initial (samplePos 80)).2.last_profit
        = insertS AMState.initial.last_profit (profit_key (samplePos 80)) "high" := by
  have h := profit_fire_strict_over_stored_level sampleCfg 0 AMState.initial
    (samplePos 80) 80 rfl
  constructor
  · exact h.1.mpr ⟨by norm_num, rfl, by norm_num [sampleCfg], by decide,
      by norm_num [sampleCfg, AMState.initial, lookupD, List.lookup]⟩
  · have h2 := h.2 (by norm_num) rfl (by norm_num [sampleCfg])
    simpa [sampleCfg, profit_current_level] using h2

/-! ### C2 -/

/-- A BTC long position at travel percent -80, profit 0, liquidation
distance 0. -/
def sampleTravelPos : Position :=
  ⟨"BTC", "LONG", "p1", "W1", some (.num 0), some (.num (-80)), some (.num 0)⟩

/-- Claim C2.  For every alert key, a message is emitted under that key only when
the time elapsed since the key's `last_triggered` is at least the configured
cooldown (stated directly for the profit and travel checkers), and
consequently, for each of the five checkers, repeating the same triggering
value across two cycles within the cooldown window never produces two
messages for the same key. -/
theorem alert_cooldown_invariant (cfg : Config) (st : AMState) (pos : Position)
    (a : AlertRow) (p : ℚ) (af : String) :
    (∀ now m, (check_profit cfg now st pos).1 = some m →
        cfg.alert_cooldown_seconds ≤ now - lookupD st.last_triggered (profit_key pos) 0)
    ∧ (∀ now m, (check_travel_percent_liquid cfg now st pos).1 = some m →
        ∃ v lvl, floatOfField pos.current_travel_percent = some v
          ∧ travel_level cfg.travel_percent_liquid_ranges v = some lvl
          ∧ cfg.alert_cooldown_seconds
              ≤ now - lookupD st.last_triggered (travel_key pos lvl) 0)
    ∧ (∀ t₁ t₂ m, (check_profit cfg t₁ st pos).1 = some m →
        t₂ - t₁ < cfg.alert_cooldown_seconds →
        (check_profit cfg t₂ (check_profit cfg t₁ st pos).2 pos).1 = none)
    ∧ (∀ t₁ t₂ m, (check_travel_percent_liquid cfg t₁ st pos).1 = some m →
        t₂ - t₁ < cfg.alert_cooldown_seconds →
        (check_travel_percent_liquid cfg t₂
          (check_travel_percent_liquid cfg t₁ st pos).2 pos).1 = none)
    ∧ (∀ t₁ t₂ m, (check_swing_alert cfg t₁ st pos).1 = some m →
        t₂ - t₁ < cfg.alert_cooldown_seconds →
        (check_swing_alert cfg t₂ (check_swing_alert cfg t₁ st pos).2 pos).1 = none)
    ∧ (∀ t₁ t₂ m, (check_blast_alert cfg t₁ st pos).1 = some m →
        t₂ - t₁ < cfg.alert_cooldown_seconds →
        (check_blast_alert cfg t₂ (check_blast_alert cfg t₁ st pos).2 pos).1 = none)
    ∧ (∀ t₁ t₂ m, (handle_price_alert_trigger cfg t₁ st a p af).1 = some m →
        t₂ - t₁ < cfg.alert_cooldown_seconds →
        (handle_price_alert_trigger cfg t₂
          (handle_price_alert_trigger cfg t₁ st a p af).2 a p af).1 = none) := by
  refine ⟨?_, ?_, ?_, ?_, ?_, ?_, ?_⟩
  · intro now m h
    obtain ⟨v, hf, h0, hen, hlow, hlt, hcd, hm, hst⟩ :=
      check_profit_fire_shape cfg now st pos m h
    exact hcd
  · intro now m h
    obtain ⟨v, lvl, hf, hneg, hen, hl, hcd, hm, hst⟩ :=
      check_travel_fire_shape cfg now st pos m h
    exact ⟨v, lvl, hf, hl, hcd⟩
  · intro t₁ t₂ m h hw
    obtain ⟨v, hf, h0, hen, hlow, hlt, hcd, hm, hst⟩ :=
      check_profit_fire_shape cfg t₁ st pos m h
    rw [hst]
    simp only [check_profit, hf, lookupD_insert_self]
    split_ifs <;> simp_all
  · intro t₁ t₂ m h hw
    obtain ⟨v, lvl, hf, hneg, hen, hl, hcd, hm, hst⟩ :=
      check_travel_fire_shape cfg t₁ st pos m h
    rw [hst]
    simp only [check_travel_percent_liquid, hf, hl, lookupD_insert_self]
    split_ifs <;> simp_all
  · intro t₁ t₂ m h hw
    obtain ⟨v, hf, hb, hcd, hm, hst⟩ := check_swing_fire_shape cfg t₁ st pos m h
    rw [hst]
    simp only [check_swing_alert, hf, lookupD_insert_self]
    split_ifs <;> simp_all
    linarith
  · intro t₁ t₂ m h hw
    obtain ⟨v, hf, hb, hcd, hm, hst⟩ := check_blast_fire_shape cfg t₁ st pos m h
    rw [hst]
    simp only [check_blast_alert, hf, lookupD_insert_self]
    split_ifs <;> simp_all
    linarith
  · intro t₁ t₂ m h hw
    obtain ⟨hcd, hm, hst⟩ := handle_price_fire_shape cfg t₁ st a p af m h
    rw [hst]
    simp only [handle_price_alert_trigger, lookupD_insert_self]
    split_ifs <;> simp_all

/-- Claim C2, witness: with a 900-second cooldown, a travel alert that fires at
t = 1000 is suppressed when the same value recurs at t = 1500. -/
theorem alert_cooldown_invariant_witness :
    (check_travel_percent_liquid sampleCfgCooldown 1500
      (check_travel_percent_liquid sampleCfgCooldown 1000 AMState.initial
        sampleTravelPos).2 sampleTravelPos).1 = none := by
  have hfire : (check_travel_percent_liquid sampleCfgCooldown 1000 AMState.initial
      sampleTravelPos).1 = some (travel_msg sampleTravelPos (-80) "HIGH") := by
    have hf : floatOfField sampleTravelPos.current_travel_percent = some (-80) := rfl
    norm_num [check_travel_percent_liquid, travel_level, sampleCfgCooldown,
      sampleCfg, lookupD, List.lookup, AMState.initial, hf]
  exact (alert_cooldown_invariant sampleCfgCooldown AMState.initial
      sampleTravelPos ⟨"", "", "", "", "", none, "", ""⟩ 0 "").2.2.2.1
    1000 1500 (travel_msg sampleTravelPos (-80) "HIGH") hfire
    (by norm_num [sampleCfgCooldown])

/-! ### C3 -/

/-- Claim C3.  When `check_profit` computes a level strictly more severe than the
stored level for the key but the cooldown has not elapsed, no message is
returned, `last_profit` is nevertheless advanced to the new level, and
`last_triggered` (and every other state component) is left unchanged. -/
theorem profit_cooldown_suppression_advances_level (cfg : Config) (now : ℚ)
    (st : AMState) (pos : Position) (v : ℚ)
    (hf : floatOfField pos.profit = some v) (h0 : 0 < v)
    (hen : cfg.profit_ranges.enabled = true) (hlow : cfg.profit_ranges.low ≤ v)
    (hesc : level_order (lookupD st.last_profit (profit_key pos) "none")
        < level_order (profit_current_level cfg.profit_ranges v))
    (hcd : now - lookupD st.last_triggered (profit_key pos) 0
        < cfg.alert_cooldown_seconds) :
    check_profit cfg now st pos
      = (none, { st with
          last_profit := insertS st.last_profit (profit_key pos)
              (profit_current_level cfg.profit_ranges v) }) := by
  simp only [check_profit, hf]
  rw [if_neg (by linarith), if_neg (by simp [hen]), if_neg (by linarith),
      if_neg (by omega), if_pos hcd]

/-- Claim C3, witness: profit 80 with stored level "none", `last_triggered` 100
and now 500 under a 900-second cooldown is suppressed while the stored
level advances to "high". -/
theorem profit_cooldown_suppression_advances_level_witness :
    check_profit sampleCfgCooldown 500
        ⟨[], [("profit-Bitcoin-Long-p1", 100)], []⟩ (samplePos 80)
      = (none, ⟨insertS [] (profit_key (samplePos 80))
            (profit_current_level sampleCfgCooldown.profit_ranges 80),
          [("profit-Bitcoin-Long-p1", 100)], []⟩) := by
  have k : profit_key (samplePos 80) = "profit-Bitcoin-Long-p1" := by decide
  exact profit_cooldown_suppression_advances_level sampleCfgCooldown 500
    ⟨[], [("profit-Bitcoin-Long-p1", 100)], []⟩ (samplePos 80) 80 rfl
    (by norm_num) rfl (by norm_num [sampleCfgCooldown, sampleCfg])
    (by decide)
    (by norm_num [lookupD, List.lookup, k, sampleCfgCooldown, sampleCfg])

/-! ### C4 -/

/-- The combined message always starts with the alert count followed by
" alerts triggered". -/
theorem aggregate_body_head (source : Option String) (msgs : List String) :
    ∃ rest, aggregate_body source msgs
      = toString msgs.length ++ " alerts triggered" ++ rest :=
  ⟨source_info_str source ++ (":\n" ++ String.intercalate "\n" msgs),
    by simp [aggregate_body, String.append_assoc]⟩

/-- Claim C4.  With monitoring enabled, a cycle that collects no messages makes no
dispatch, and a cycle that collects `n > 0` messages makes exactly one
`send_call` under the fixed key "aggregated-alert" whose body is the
combined message — the count, " alerts triggered", then the newline-joined
list — so the body starts with `n` followed by " alerts triggered". -/
theorem check_alerts_single_aggregate_dispatch (cfg : Config) (now : ℚ)
    (ok : Bool) (positions : List Position) (alerts : List AlertRow)
    (prices : List (String × ℚ)) (source : Option String) (st : AMState)
    (h : cfg.alert_monitor_enabled = true) :
    ((check_alerts cfg now ok positions alerts prices source st).aggregated_alerts = [] →
      (check_alerts cfg now ok positions alerts prices source st).dispatched = none)
    ∧ ((check_alerts cfg now ok positions alerts prices source st).aggregated_alerts ≠ [] →
        (check_alerts cfg now ok positions alerts prices source st).dispatched
          = some (aggregate_body source
              (check_alerts cfg now ok positions alerts prices source st).aggregated_alerts,
              "aggregated-alert")
        ∧ ∃ rest, aggregate_body source
              (check_alerts cfg now ok positions alerts prices source st).aggregated_alerts
            = toString (check_alerts cfg now ok positions alerts prices
                source st).aggregated_alerts.length
              ++ " alerts triggered" ++ rest) := by
  simp only [check_alerts, h, eq_self_iff_true, not_true, if_false]
  split_ifs with ha
  · simp [ha]
  · exact ⟨fun he => absurd he ha, fun hne => ⟨rfl, aggregate_body_head source _⟩⟩

/-- The ETH price alert of the spec's end-to-end property: condition ABOVE,
trigger 3000, active. -/
def ethAlert : AlertRow :=
  ⟨"PRICE_THRESHOLD", "active", "ETH", "a1", "ABOVE", some (.num 3000), "LONG", "Unknown"⟩

/-- A price table with ETH at 3100. -/
def samplePrices : List (String × ℚ) := [("ETH", 3100)]

/-- Claim C4, witness: the end-to-end scenario of the spec — one BTC long position
with profit 80 and one ETH ABOVE-3000 price alert at price 3100, zero
cooldown — collects exactly two messages and dispatches once under
"aggregated-alert" with a body starting with "2 alerts triggered". -/
theorem check_alerts_single_aggregate_dispatch_witness :
    (check_alerts sampleCfg 0 true [samplePos 80] [ethAlert] samplePrices none
        AMState.initial).aggregated_alerts
      = [profit_msg (samplePos 80) 80 "high", price_msg ethAlert "Ethereum" 3100]
    ∧ (check_alerts sampleCfg 0 true [samplePos 80] [ethAlert] samplePrices none
        AMState.initial).dispatched
      = some (aggregate_body none
          (check_alerts sampleCfg 0 true [samplePos 80] [ethAlert] samplePrices none
            AMState.initial).aggregated_alerts, "aggregated-alert")
    ∧ ∃ rest, aggregate_body none
          (check_alerts sampleCfg 0 true [samplePos 80] [ethAlert] samplePrices none
            AMState.initial).aggregated_alerts
        = toString (2 : ℕ) ++ " alerts triggered" ++ rest := by
  have hagg : (check_alerts sampleCfg 0 true [samplePos 80] [ethAlert]
      samplePrices none AMState.initial).aggregated_alerts
      = [profit_msg (samplePos 80) 80 "high", price_msg ethAlert "Ethereum" 3100] := by
    have l0 : level_order "none" = 0 := by decide
    have l3 : level_order "high" = 3 := by decide
    have k80 : profit_key (samplePos 80) = "profit-Bitcoin-Long-p1" := by decide
    have hp80 : floatOfField (samplePos 80).profit = some 80 := rfl
    have htv : floatOfField (samplePos 80).current_travel_percent = some 0 := rfl
    have hld : floatOfField (samplePos 80).liquidation_distance = some 0 := rfl
    have s1 : pyUpper (samplePos 80).asset_type = "BTC" := by decide
    have u2 : pyUpper "ETH" = "ETH" := by decide
    have u3 : pyUpper "ABOVE" = "ABOVE" := by decide
    have a2 : assetFullName "ETH" = "Ethereum" := by decide
    have pk : price_key "Ethereum" "a1" = "price-alert-Ethereum-a1" := by decide
    have hb1 : (("price-alert-Ethereum-a1" : String) == "profit-Bitcoin-Long-p1")
        = false := by decide
    have hb2 : (("BTC" : String) == "BTC") = true := by decide
    have hb3 : (("ETH" : String) == "ETH") = true := by decide
    have hfo : floatOfField (some (NumField.num 3000)) = some 3000 := rfl
    norm_num [check_alerts, check_positions, check_position, check_profit,
      check_travel_percent_liquid, check_swing_alert, check_blast_alert,
      check_price_alerts, price_alert_loop, handle_price_alert_trigger,
      is_active_price_alert, trigger_val_of, sampleCfg, AMState.initial, ethAlert,
      samplePrices, lookupD, insertS, List.lookup, List.filter, profit_current_level,
      l0, l3, k80, hp80, htv, hld, s1, u2, u3, a2, pk, hb1, hb2, hb3, hfo]
    rfl
  have h := (check_alerts_single_aggregate_dispatch sampleCfg 0 true
      [samplePos 80] [ethAlert] samplePrices none AMState.initial rfl).2
    (by rw [hagg]; simp)
  exact ⟨hagg, h.1, by simpa [hagg] using h.2⟩

/-! ### C5 -/

/-- Claim C5.  `check_travel_percent_liquid` never alerts on a non-negative travel
percent; any fired message carries exactly the single band computed by the
HIGH-then-MEDIUM-then-LOW cascade (at most one message per call, the result
being a single optional message); and the cascade classifies HIGH when
`v ≤ high`, else MEDIUM when `v ≤ medium`, else LOW when `v ≤ low`, else
nothing. -/
theorem travel_percent_band_classify (cfg : Config) (now : ℚ) (st : AMState)
    (pos : Position) (v : ℚ)
    (hf : floatOfField pos.current_travel_percent = some v) :
    (0 ≤ v → (check_travel_percent_liquid cfg now st pos).1 = none)
    ∧ (∀ m, (check_travel_percent_liquid cfg now st pos).1 = some m →
        v < 0 ∧ cfg.travel_percent_liquid_ranges.enabled = true
        ∧ ∃ lvl, travel_level cfg.travel_percent_liquid_ranges v = some lvl
            ∧ m = travel_msg pos v lvl)
    ∧ (v ≤ cfg.travel_percent_liquid_ranges.high →
        travel_level cfg.travel_percent_liquid_ranges v = some "HIGH")
    ∧ (cfg.travel_percent_liquid_ranges.high < v →
        v ≤ cfg.travel_percent_liquid_ranges.medium →
        travel_level cfg.travel_percent_liquid_ranges v = some "MEDIUM")
    ∧ (cfg.travel_percent_liquid_ranges.high < v →
        cfg.travel_percent_liquid_ranges.medium < v →
        v ≤ cfg.travel_percent_liquid_ranges.low →
        travel_level cfg.travel_percent_liquid_ranges v = some "LOW")
    ∧ (cfg.travel_percent_liquid_ranges.high < v →
        cfg.travel_percent_liquid_ranges.medium < v →
        cfg.travel_percent_liquid_ranges.low < v →
        travel_level cfg.travel_percent_liquid_ranges v = none) := by
  refine ⟨?_, ?_, ?_, ?_, ?_, ?_⟩
  · intro h
    simp [check_travel_percent_liquid, hf, h]
  · intro m hm
    obtain ⟨v', lvl, hf', hneg, hen, hl, hcd, hmsg, hst⟩ :=
      check_travel_fire_shape cfg now st pos m hm
    rw [hf] at hf'
    obtain rfl : v = v' := by simpa using hf'
    exact ⟨hneg, hen, lvl, hl, hmsg⟩
  · intro h
    simp [travel_level, h]
  · intro h1 h2
    simp only [travel_level]
    rw [if_neg (by linarith), if_pos h2]
  · intro h1 h2 h3
    simp only [travel_level]
    rw [if_neg (by linarith), if_neg (by linarith), if_pos h3]
  · intro h1 h2 h3
    simp only [travel_level]
    rw [if_neg (by linarith), if_neg (by linarith), if_neg (by linarith)]

/-- Claim C5, witness: travel percent -80 with thresholds -25, -50, -75 classifies
HIGH and the checker fires exactly the HIGH message. -/
theorem travel_percent_band_classify_witness :
    travel_level sampleCfg.travel_percent_liquid_ranges (-80) = some "HIGH"
    ∧ (check_travel_percent_liquid sampleCfg 0 AMState.initial sampleTravelPos).1
        = some (travel_msg sampleTravelPos (-80) "HIGH") := by
  have h := travel_percent_band_classify sampleCfg 0 AMState.initial
    sampleTravelPos (-80) rfl
  refine ⟨h.2.2.1 (by norm_num [sampleCfg]), ?_⟩
  have hf : floatOfField sampleTravelPos.current_travel_percent = some (-80) := rfl
  norm_num [check_travel_percent_liquid, travel_level, sampleCfg, lookupD,
    List.lookup, AMState.initial, hf]

/-! ### C6 -/

/-- Claim C6.  The swing and blast evaluators fire exactly when the liquidation
distance reaches the per-asset boundary (looked up with default 0, the test
being inclusive) and the cooldown for the metric-specific key has elapsed;
on firing they set `last_triggered` for that key to now. -/
theorem swing_blast_inclusive_boundary (cfg : Config) (now : ℚ) (st : AMState)
    (pos : Position) (v : ℚ)
    (hf : floatOfField pos.liquidation_distance = some v) :
    ((check_swing_alert cfg now st pos).1 ≠ none ↔
      lookupD cfg.average_daily_swing (pyUpper pos.asset_type) 0 ≤ v
      ∧ cfg.alert_cooldown_seconds ≤ now - lookupD st.last_triggered (swing_key pos) 0)
    ∧ ((check_swing_alert cfg now st pos).1 ≠ none →
        lookupD (check_swing_alert cfg now st pos).2.last_triggered (swing_key pos) 0 = now)
    ∧ ((check_blast_alert cfg now st pos).1 ≠ none ↔
      lookupD cfg.one_day_blast_radius (pyUpper pos.asset_type) 0 ≤ v
      ∧ cfg.alert_cooldown_seconds ≤ now - lookupD st.last_triggered (blast_key pos) 0)
    ∧ ((check_blast_alert cfg now st pos).1 ≠ none →
        lookupD (check_blast_alert cfg now st pos).2.last_triggered (blast_key pos) 0 = now) := by
  refine ⟨?_, ?_, ?_, ?_⟩
  · simp only [check_swing_alert, hf]
    split_ifs with h1 h2 <;> simp_all
  · intro hne
    rcases hx : (check_swing_alert cfg now st pos).1 with - | m
    · exact absurd hx hne
    · obtain ⟨v', hf', hb, hcd, hm, hst⟩ := check_swing_fire_shape cfg now st pos m hx
      rw [hst]
      exact lookupD_insert_self _ _ _ _
  · simp only [check_blast_alert, hf]
    split_ifs with h1 h2 <;> simp_all
  · intro hne
    rcases hx : (check_blast_alert cfg now st pos).1 with - | m
    · exact absurd hx hne
    · obtain ⟨v', hf', hb, hcd, hm, hst⟩ := check_blast_fire_shape cfg now st pos m hx
      rw [hst]
      exact lookupD_insert_self _ _ _ _

/-- A BTC long position with the given liquidation distance. -/
def swingPos (d : ℚ) : Position :=
  ⟨"BTC", "LONG", "p1", "W1", some (.num 0), some (.num 0), some (.num d)⟩

/-- Claim C6, witness: with the BTC boundary 10, distance 10 fires (inclusive) for
both swing and blast, and distance 9.999 does not. -/
theorem swing_blast_inclusive_boundary_witness :
    (check_swing_alert sampleCfg 0 AMState.initial (swingPos 10)).1 ≠ none
    ∧ (check_swing_alert sampleCfg 0 AMState.initial (swingPos (9999/1000))).1 = none
    ∧ (check_blast_alert sampleCfg 0 AMState.initial (swingPos 10)).1 ≠ none := by
  have hb2 : (("BTC" : String) == "BTC") = true := by decide
  have s1 : pyUpper (swingPos 10).asset_type = "BTC" := by decide
  have s2 : pyUpper (swingPos (9999/1000)).asset_type = "BTC" := by decide
  refine ⟨?_, ?_, ?_⟩
  · exact (swing_blast_inclusive_boundary sampleCfg 0 AMState.initial
        (swingPos 10) 10 rfl).1.mpr
      ⟨by norm_num [lookupD, List.lookup, sampleCfg, s1, hb2],
       by norm_num [lookupD, List.lookup, AMState.initial, sampleCfg]⟩
  · have h := (swing_blast_inclusive_boundary sampleCfg 0 AMState.initial
      (swingPos (9999/1000)) (9999/1000) rfl).1
    refine not_ne_iff.mp (fun hn => ?_)
    obtain ⟨hbound, -⟩ := h.mp hn
    rw [s2] at hbound
    norm_num [lookupD, List.lookup, sampleCfg, hb2] at hbound
  · exact (swing_blast_inclusive_boundary sampleCfg 0 AMState.initial
        (swingPos 10) 10 rfl).2.2.1.mpr
      ⟨by norm_num [lookupD, List.lookup, sampleCfg, s1, hb2],
       by norm_num [lookupD, List.lookup, AMState.initial, sampleCfg]⟩

/-! ### C7 -/

/-- Claim C7.  For an active price alert: when no price row exists for the asset
the alert is skipped without error and without state change; when a price is
known and the key's cooldown has elapsed, the alert fires exactly when the
ABOVE condition holds with current price ≥ trigger, or the condition is not
ABOVE and current price ≤ trigger (both boundaries inclusive). -/
theorem price_alert_condition_semantics (cfg : Config) (now : ℚ) (st : AMState)
    (prices : List (String × ℚ)) (a : AlertRow)
    (htype : a.alert_type = "PRICE_THRESHOLD") (hact : pyLower a.status = "active") :
    (List.lookup (pyUpper a.asset_type) prices = none →
      check_price_alerts cfg now prices st [a] = ([], st))
    ∧ (∀ p, List.lookup (pyUpper a.asset_type) prices = some p →
        cfg.alert_cooldown_seconds ≤ now - lookupD st.last_triggered
          (price_key (assetFullName (pyUpper a.asset_type)) a.position_id) 0 →
        ((check_price_alerts cfg now prices st [a]).1 ≠ [] ↔
          ((pyUpper a.condition = "ABOVE" ∧ trigger_val_of a ≤ p)
           ∨ (pyUpper a.condition ≠ "ABOVE" ∧ p ≤ trigger_val_of a)))) := by
  have hfil : List.filter is_active_price_alert [a] = [a] := by
    simp [List.filter, is_active_price_alert, htype, hact]
  constructor
  · intro hnone
    simp [check_price_alerts, hfil, price_alert_loop, hnone]
  · intro p hp hcd
    simp only [check_price_alerts, hfil, price_alert_loop, hp]
    by_cases hc : (pyUpper a.condition = "ABOVE" ∧ trigger_val_of a ≤ p)
        ∨ (pyUpper a.condition ≠ "ABOVE" ∧ p ≤ trigger_val_of a)
    · rw [if_pos hc]
      simp only [handle_price_alert_trigger, if_neg (not_lt.mpr hcd)]
      simpa using hc
    · rw [if_neg hc]
      simpa using hc

/-- The BTC price alert of the spec's boundary example: condition ABOVE,
trigger 50000, active. -/
def btcPriceAlert : AlertRow :=
  ⟨"PRICE_THRESHOLD", "active", "BTC", "b1", "ABOVE", some (.num 50000), "LONG", "Unknown"⟩

/-- Claim C7, witness: with trigger 50000, price 50000 fires (inclusive boundary),
price 49999 does not, and an empty price table skips the alert without
error or state change. -/
theorem price_alert_condition_semantics_witness :
    (check_price_alerts sampleCfg 0 [("BTC", 50000)] AMState.initial [btcPriceAlert]).1 ≠ []
    ∧ (check_price_alerts sampleCfg 0 [("BTC", 49999)] AMState.initial [btcPriceAlert]).1 = []
    ∧ check_price_alerts sampleCfg 0 [] AMState.initial [btcPriceAlert]
        = ([], AMState.initial) := by
  refine ⟨?_, ?_, ?_⟩
  · exact ((price_alert_condition_semantics sampleCfg 0 AMState.initial
        [("BTC", 50000)] btcPriceAlert rfl (by decide)).2 50000 (by decide)
        (by norm_num [lookupD, List.lookup, AMState.initial, sampleCfg])).mpr
      (Or.inl ⟨by decide, by decide⟩)
  · have h := (price_alert_condition_semantics sampleCfg 0 AMState.initial
      [("BTC", 49999)] btcPriceAlert rfl (by decide)).2 49999 (by decide)
      (by norm_num [lookupD, List.lookup, AMState.initial, sampleCfg])
    refine not_ne_iff.mp (fun hn => ?_)
    rcases h.mp hn with ⟨-, habs⟩ | ⟨hne, -⟩
    · revert habs
      decide
    · exact hne (by decide)
  · exact (price_alert_condition_semantics sampleCfg 0 AMState.initial
      [] btcPriceAlert rfl (by decide)).1 rfl

/-! ### C8 -/

/-- A BTC long position whose profit and liquidation distance fields are
non-numeric (their `float()` conversion raises) and whose travel percent is
-80. -/
def badPos : Position :=
  ⟨"BTC", "LONG", "p1", "W1", some .bad, some (.num (-80)), some .bad⟩

/-- Claim C8.  A profit-field conversion failure makes `check_profit` skip that
single check with no state change; the rest of the cycle still runs: in the
concrete cycle over `badPos` (profit and liquidation distance malformed,
travel percent -80) and the ETH price alert, the travel alert and the price
alert both still fire. -/
theorem conversion_failure_isolated (cfg : Config) (now : ℚ) (st : AMState)
    (pos : Position) (hbad : pos.profit = some NumField.bad) :
    check_profit cfg now st pos = (none, st)
    ∧ (check_alerts sampleCfg 0 true [badPos] [ethAlert] samplePrices none
        AMState.initial).aggregated_alerts
      = [travel_msg badPos (-80) "HIGH", price_msg ethAlert "Ethereum" 3100] := by
  constructor
  · simp [check_profit, hbad, floatOfField]
  · have hp : floatOfField badPos.profit = none := rfl
    have htv : floatOfField badPos.current_travel_percent = some (-80) := rfl
    have hld : floatOfField badPos.liquidation_distance = none := rfl
    have tk : travel_key badPos "HIGH" = "Bitcoin-Long-p1-travel-HIGH" := by decide
    have u2 : pyUpper "ETH" = "ETH" := by decide
    have u3 : pyUpper "ABOVE" = "ABOVE" := by decide
    have a2 : assetFullName "ETH" = "Ethereum" := by decide
    have pk : price_key "Ethereum" "a1" = "price-alert-Ethereum-a1" := by decide
    have hb1 : (("price-alert-Ethereum-a1" : String) == "Bitcoin-Long-p1-travel-HIGH")
        = false := by decide
    have hb3 : (("ETH" : String) == "ETH") = true := by decide
    have hfo : floatOfField (some (NumField.num 3000)) = some 3000 := rfl
    norm_num [check_alerts, check_positions, check_position, check_profit,
      check_travel_percent_liquid, check_swing_alert, check_blast_alert,
      check_price_alerts, price_alert_loop, handle_price_alert_trigger,
      is_active_price_alert, trigger_val_of, sampleCfg, AMState.initial, ethAlert,
      samplePrices, lookupD, insertS, List.lookup, List.filter, travel_level,
      hp, htv, hld, tk, u2, u3, a2, pk, hb1, hb3, hfo]
    rfl

/-- Claim C8, witness: `check_profit` on the malformed position returns no alert
and the state unchanged. -/
theorem conversion_failure_isolated_witness :
    check_profit sampleCfg 0 AMState.initial badPos = (none, AMState.initial) :=
  (conversion_failure_isolated sampleCfg 0 AMState.initial badPos rfl).1

/-! ### C9 -/

/-- Claim C9.  A failing dispatch inside `send_call` is absorbed: the state — in
particular `last_call_triggered` for the key — is returned unchanged, so a
retry is possible next cycle; on a successful dispatch past the refractory
window the timestamp is advanced to now; and the cycle summary computed by
`check_alerts` is the same whether the dispatch succeeds or fails. -/
theorem send_call_failure_no_advance (cfg : Config) (now : ℚ) (st : AMState)
    (body key : String) (positions : List Position) (alerts : List AlertRow)
    (prices : List (String × ℚ)) (source : Option String) :
    ((send_call cfg now false st body key).1 = st)
    ∧ (cfg.call_refractory_period ≤ now - lookupD st.last_call_triggered key 0 →
        (send_call cfg now true st body key).1
          = { st with last_call_triggered := insertS st.last_call_triggered key now })
    ∧ ((check_alerts cfg now false positions alerts prices source st).aggregated_alerts
        = (check_alerts cfg now true positions alerts prices source st).aggregated_alerts) := by
  refine ⟨?_, ?_, ?_⟩
  · simp only [send_call]
    split_ifs <;> simp_all
  · intro h
    simp [send_call, not_lt.mpr h]
  · simp only [check_alerts]
    split_ifs <;> rfl

/-- Claim C9, witness: a failing dispatch right after a cycle start leaves the
fresh state untouched, and a successful one records the call time. -/
theorem send_call_failure_no_advance_witness :
    (send_call sampleCfg 3600 false AMState.initial "body" "aggregated-alert").1
        = AMState.initial
    ∧ (send_call sampleCfg 3600 true AMState.initial "body" "aggregated-alert").1
        = (⟨AMState.initial.last_profit, AMState.initial.last_triggered,
            insertS AMState.initial.last_call_triggered "aggregated-alert" 3600⟩ : AMState) := by
  have h := send_call_failure_no_advance sampleCfg 3600 AMState.initial "body"
    "aggregated-alert" [] [] [] none
  exact ⟨h.1, h.2.1 (by norm_num [lookupD, List.lookup, AMState.initial, sampleCfg])⟩

/-! ### C10 -/

/-- Claim C10.  With `alert_monitor_enabled` false, `check_alerts` is a no-op: it
returns the input state unchanged (none of the three maps is touched),
collects no messages and performs no dispatch. -/
theorem monitor_disabled_noop (cfg : Config) (now : ℚ) (ok : Bool)
    (positions : List Position) (alerts : List AlertRow)
    (prices : List (String × ℚ)) (source : Option String) (st : AMState)
    (h : cfg.alert_monitor_enabled = false) :
    check_alerts cfg now ok positions alerts prices source st = ⟨st, [], none⟩ := by
  simp [check_alerts, h]

/-- `sampleCfg` with monitoring disabled. -/
def sampleCfgDisabled : Config :=
  { sampleCfg with alert_monitor_enabled := false }

/-- Claim C10, witness: the two-alert scenario that fires twice when enabled does
nothing at all when monitoring is disabled. -/
theorem monitor_disabled_noop_witness :
    check_alerts sampleCfgDisabled 0 true [samplePos 80] [ethAlert] samplePrices
        none AMState.initial
      = ⟨AMState.initial, [], none⟩ :=
  monitor_disabled_noop sampleCfgDisabled 0 true [samplePos 80] [ethAlert]
    samplePrices none AMState.initial rfl

end AlertManager
